import Mathlib

/-!
# Verification of the TSE deceased-status checker

Shallow embedding of `src/main_local.py`: a three-step stateful ASP.NET
form navigation (`get_tse_details_html`), the result parser and facade
(`check_fallecido`), and the HTTP route (`check_cedula`).

Modelling choices:
* An HTML document is abstracted to the two features the code reads from
  it: its hidden `input` elements (name/value pairs, in document order,
  looked up by `soup.find('input', {'name': n})`) and its `span` elements
  (id/text pairs, looked up by `soup.find('span', {'id': i})`).
* The `requests.Session` (with its cookie jar and the retry-wrapped
  adapter) is abstracted to a `Transport`: a function from the current
  session state and a request to either an exception (a `requests`
  exception message, covering connection failures after the adapter's
  retries are exhausted) or a response plus updated session state.
  A fresh session (`requests.Session()` at the top of the Python
  function) is the empty cookie jar.
* Each outgoing request records the keyword arguments the Python call
  passes: method, url, form data, and the `timeout` argument (`none`
  when the call site passes no timeout, as in this source).
* Python dicts returned by `check_fallecido` are modelled by a record of
  optional fields, one per key that can occur (`fallecido`, `cedula`,
  `error`); a field is `none` exactly when the key is absent.
* `get_tse_details_html` is instrumented to also return the list of HTTP
  requests actually issued, in order, so that claims about "zero network
  calls" and "the step-3 endpoint is never called" are statable.
-/

namespace TseChecker

/-- HTTP method of an outgoing request. -/
inductive Method
  | get
  | post
deriving DecidableEq, Repr

/-- One outgoing HTTP exchange as issued by the Python code: the method,
the target url, the urlencoded form data, and the `timeout` keyword
argument (`none` when the call site passes no timeout). -/
structure Request where
  method : Method
  url : String
  data : List (String × String)
  timeout : Option Nat
deriving DecidableEq, Repr

/-- An HTML document, abstracted to the elements the code reads:
`input` elements as (name, value) pairs and `span` elements as
(id, text) pairs, in document order. -/
structure Html where
  inputs : List (String × String)
  spans : List (String × String)
deriving DecidableEq, Repr

/-- An HTTP response: status code and body document. -/
structure Response where
  status : Nat
  body : Html
deriving DecidableEq, Repr

/-- Session state carried by one `requests.Session` (its cookie jar). -/
def Session := List (String × String)
deriving instance DecidableEq for Session

/-- A freshly constructed `requests.Session()`: empty cookie jar. -/
def Session.fresh : Session := []

/-- The behaviour of the network as seen through one session object:
given the session's current state and a request, either raise (a
`requests` exception message, e.g. connection failure after the
adapter's 3 connect retries) or return a response and the session's
updated state. -/
def Transport := Session → Request → Except String (Response × Session)

/-- `soup.find('input', {'name': name})`, returning the `value`
attribute of the first matching input. -/
def findInput (h : Html) (name : String) : Option String :=
  (h.inputs.find? fun p => p.1 == name).map (·.2)

/-- `soup.find('span', {'id': spanId})`, returning the (stripped) text
of the first matching span. -/
def findSpan (h : Html) (spanId : String) : Option String :=
  (h.spans.find? fun p => p.1 == spanId).map (·.2)

/-- `base_url` from the source. -/
def base_url : String := "https://servicioselectorales.tse.go.cr/chc"

/-- `search_url` from the source. -/
def search_url : String := base_url ++ "/consulta_cedula.aspx"

/-- `result_url` from the source. -/
def result_url : String := base_url ++ "/resultado_persona.aspx"

/-- Lines 38-46 / 64-72 of the source: extract the three ASP.NET hidden
fields, each defaulting to `""` when the element is absent. -/
def extractHiddenFields (h : Html) : List (String × String) :=
  [("__VIEWSTATE", (findInput h "__VIEWSTATE").getD ""),
   ("__VIEWSTATEGENERATOR", (findInput h "__VIEWSTATEGENERATOR").getD ""),
   ("__EVENTVALIDATION", (findInput h "__EVENTVALIDATION").getD "")]

/-- The all-empty StateTokenSet: what `extractHiddenFields` yields on a
page carrying none of the three hidden inputs. -/
def emptyTokens : List (String × String) :=
  [("__VIEWSTATE", ""), ("__VIEWSTATEGENERATOR", ""), ("__EVENTVALIDATION", "")]

/-- `response.raise_for_status()`: raise an `HTTPError` (a
`requests.RequestException`) on a 4xx or 5xx status. -/
def raise_for_status (r : Response) : Except String Unit :=
  if 400 ≤ r.status ∧ r.status < 600 then
    .error ("HTTP error " ++ toString r.status)
  else
    .ok ()

/-- Step 1's request: `session.get(search_url)` — no body, no timeout. -/
def initReq : Request := ⟨.get, search_url, [], none⟩

/-- Step 2's request: `session.post(search_url, data=search_data)` with
`search_data = {'txtcedula': cedula, 'btnConsultaCedula': 'Consultar',
**hidden_fields}`. -/
def searchReq (cedula : String) (hidden : List (String × String)) : Request :=
  ⟨.post, search_url,
   [("txtcedula", cedula), ("btnConsultaCedula", "Consultar")] ++ hidden, none⟩

/-- Step 3's request: `session.post(result_url, data=details_data)` with
`details_data = {'__EVENTTARGET': 'LinkButton11', '__EVENTARGUMENT': '',
**new_hidden_fields}`. -/
def detailsReq (hidden : List (String × String)) : Request :=
  ⟨.post, result_url,
   [("__EVENTTARGET", "LinkButton11"), ("__EVENTARGUMENT", "")] ++ hidden, none⟩

/-- `get_tse_details_html` (lines 8-98): create a fresh session, GET the
search page, extract the hidden fields, POST the search form, extract
the new hidden fields, POST the detail-link postback, and return the
final response body.  Any `requests` exception (transport failure or
`raise_for_status`) propagates out as `.error`.  Instrumented to also
return the list of requests actually issued, in order. -/
def get_tse_details_html (t : Transport) (cedula : String) :
    Except String Html × List Request :=
  match t Session.fresh initReq with
  | .error e => (.error e, [initReq])
  | .ok (r1, s1) =>
    match raise_for_status r1 with
    | .error e => (.error e, [initReq])
    | .ok _ =>
      let req2 := searchReq cedula (extractHiddenFields r1.body)
      match t s1 req2 with
      | .error e => (.error e, [initReq, req2])
      | .ok (r2, s2) =>
        match raise_for_status r2 with
        | .error e => (.error e, [initReq, req2])
        | .ok _ =>
          let req3 := detailsReq (extractHiddenFields r2.body)
          match t s2 req3 with
          | .error e => (.error e, [initReq, req2, req3])
          | .ok (r3, _) =>
            match raise_for_status r3 with
            | .error e => (.error e, [initReq, req2, req3])
            | .ok _ => (.ok r3.body, [initReq, req2, req3])

/-- The dictionary returned by `check_fallecido` / serialized by the
route: a record of optional fields, one per possible key; a field is
`none` exactly when the key is absent from the dict. -/
structure CheckResult where
  fallecido : Option Bool
  cedula : Option String
  error : Option String
deriving DecidableEq, Repr

/-- Python `str.strip` / BeautifulSoup `get_text(strip=True)`: drop
leading and trailing whitespace. -/
def pyStrip (s : String) : String :=
  ⟨((s.data.dropWhile Char.isWhitespace).reverse.dropWhile
      Char.isWhitespace).reverse⟩

/-- Python `str.upper`: uppercase every character. -/
def pyUpper (s : String) : String :=
  ⟨s.data.map Char.toUpper⟩

/-- The parser's normalization, `get_text(strip=True).upper()`. -/
def normalizeStatus (s : String) : String :=
  pyUpper (pyStrip s)

/-- Lines 143-157 of `check_fallecido`: locate the `lblfallecido` span,
normalize its text (`get_text(strip=True).upper()`), and map `"SI"` /
`"NO"` to the success dicts, anything else or an absent element to an
error dict. -/
def parse_fallecido (html : Html) (cedula : String) : CheckResult :=
  match findSpan html "lblfallecido" with
  | some txt =>
    let v := normalizeStatus txt
    if v = "SI" then ⟨some true, some cedula, none⟩
    else if v = "NO" then ⟨some false, some cedula, none⟩
    else ⟨none, none, some ("Unknown value for Fallecido/a: " ++ v)⟩
  | none => ⟨none, none, some "Could not find 'lblfallecido' element in HTML"⟩

/-- `check_fallecido` (lines 128-160): run the navigation, parse the
terminal document; any exception raised underneath is caught by the
`except Exception` handler and becomes `{"error": str(e)}`. -/
def check_fallecido (t : Transport) (cedula : String) : CheckResult :=
  match (get_tse_details_html t cedula).1 with
  | .error e => ⟨none, none, some e⟩
  | .ok html => parse_fallecido html cedula

/-- Network activity performed by one `check_fallecido` call: exactly
the requests its navigation issued. -/
def check_fallecido_calls (t : Transport) (cedula : String) : List Request :=
  (get_tse_details_html t cedula).2

/-- The `/check` route (lines 166-183): `request.args.get('cedula')`
yields `none` when the parameter is missing; Python's `not cedula` is
true for both `None` and `""`.  Returns the HTTP status code paired
with the JSON body, instrumented with the list of network requests the
handling of this route call issued. -/
def check_cedula (t : Transport) (cedula? : Option String) :
    (Nat × CheckResult) × List Request :=
  match cedula? with
  | none => ((400, ⟨none, none, some "Missing 'cedula' parameter"⟩), [])
  | some c =>
    if c = "" then ((400, ⟨none, none, some "Missing 'cedula' parameter"⟩), [])
    else
      let r := check_fallecido t c
      ((if r.error.isSome then 500 else 200, r), check_fallecido_calls t c)

/-! ## Mock transports used as concrete instances -/

/-- A well-formed initial search page carrying the three hidden fields. -/
def page1 : Html :=
  ⟨[("__VIEWSTATE", "vs1"), ("__VIEWSTATEGENERATOR", "g1"),
    ("__EVENTVALIDATION", "ev1")], []⟩

/-- A well-formed results page carrying fresh hidden fields. -/
def page2 : Html :=
  ⟨[("__VIEWSTATE", "vs2"), ("__VIEWSTATEGENERATOR", "g2"),
    ("__EVENTVALIDATION", "ev2")], []⟩

/-- A terminal details page whose `lblfallecido` span reads `NO`. -/
def page3 : Html := ⟨[], [("lblfallecido", "NO")]⟩

/-- A page carrying none of the hidden fields and no status span. -/
def emptyPage : Html := ⟨[], []⟩

/-- A mock server for a full happy-path lookup: the detail endpoint
serves `page3`, GETs serve `page1`, other POSTs serve `page2`. -/
def mockT : Transport := fun s q =>
  if q.url == result_url then .ok (⟨200, page3⟩, s)
  else if q.method == Method.get then .ok (⟨200, page1⟩, s)
  else .ok (⟨200, page2⟩, s)

/-- A mock server answering every request with status 200 and a page
carrying no hidden fields at all. -/
def constT : Transport := fun s _ => .ok (⟨200, emptyPage⟩, s)

/-- A mock transport whose every request raises a connection error. -/
def failT : Transport := fun _ _ => .error "connection refused"

/-! ## C1: behaviour on an all-empty StateTokenSet -/

/-- C1, counterexample: against a server whose step-2 response carries
none of the three hidden fields (so the extracted StateTokenSet is
all-empty), the navigator does NOT abort: the step-3 request to the
results endpoint is still issued — carrying the all-empty token set —
and the sequence completes normally, returning the final body instead
of a navigation error. -/
theorem C1_counterexample :
    extractHiddenFields emptyPage = emptyTokens ∧
    (get_tse_details_html constT "102920417").2 =
      [initReq, searchReq "102920417" emptyTokens, detailsReq emptyTokens] ∧
    (get_tse_details_html constT "102920417").1 = .ok emptyPage :=
  ⟨rfl, rfl, rfl⟩

/-- C1, amended: the navigator never inspects the extracted token set.
After any two successful (non-4xx/5xx) responses it always issues the
step-3 request, whatever token values — possibly all empty — step 2's
response yielded; only HTTP error statuses or transport exceptions
abort the sequence. -/
theorem C1_amended (t : Transport) (c : String) (r1 : Response) (s1 : Session)
    (r2 : Response) (s2 : Session)
    (h1 : t Session.fresh initReq = .ok (r1, s1))
    (ok1 : raise_for_status r1 = .ok ())
    (h2 : t s1 (searchReq c (extractHiddenFields r1.body)) = .ok (r2, s2))
    (ok2 : raise_for_status r2 = .ok ()) :
    (get_tse_details_html t c).2 =
      [initReq, searchReq c (extractHiddenFields r1.body),
       detailsReq (extractHiddenFields r2.body)] := by
  unfold get_tse_details_html
  simp only [h1, ok1, h2, ok2]
  cases h3 : t s2 (detailsReq (extractHiddenFields r2.body)) with
  | error e => simp
  | ok p =>
    obtain ⟨r3, s3⟩ := p
    cases h4 : raise_for_status r3 <;> simp [h4]

/-- C1, witness for the amended theorem at the all-empty-token server. -/
theorem C1_amended_witness :
    (get_tse_details_html constT "102920417").2 =
      [initReq, searchReq "102920417" (extractHiddenFields emptyPage),
       detailsReq (extractHiddenFields emptyPage)] :=
  C1_amended constT "102920417" ⟨200, emptyPage⟩ Session.fresh
    ⟨200, emptyPage⟩ Session.fresh rfl rfl rfl rfl

/-! ## C2: the three-exchange protocol -/

/-- C2: for every identifier and transport behaviour, a successful
lookup consists of exactly three HTTP exchanges in strict order:
(1) a bodyless GET of the search endpoint, from whose response
StateTokenSet₀ is extracted; (2) a POST of the search endpoint carrying
the identifier field, the fixed submit action token, and StateTokenSet₀,
from whose response StateTokenSet₁ is extracted; (3) a POST of the
results endpoint carrying the fixed detail-link event target, an empty
event argument, and StateTokenSet₁ — the third response's body being
the terminal document returned. -/
theorem C2_exact_protocol (t : Transport) (c : String)
    (r1 : Response) (s1 : Session) (r2 : Response) (s2 : Session)
    (r3 : Response) (s3 : Session)
    (h1 : t Session.fresh initReq = .ok (r1, s1))
    (ok1 : raise_for_status r1 = .ok ())
    (h2 : t s1 (searchReq c (extractHiddenFields r1.body)) = .ok (r2, s2))
    (ok2 : raise_for_status r2 = .ok ())
    (h3 : t s2 (detailsReq (extractHiddenFields r2.body)) = .ok (r3, s3))
    (ok3 : raise_for_status r3 = .ok ()) :
    get_tse_details_html t c =
      (.ok r3.body,
       [initReq, searchReq c (extractHiddenFields r1.body),
        detailsReq (extractHiddenFields r2.body)]) ∧
    initReq = ⟨.get, search_url, [], none⟩ ∧
    searchReq c (extractHiddenFields r1.body) =
      ⟨.post, search_url,
       [("txtcedula", c), ("btnConsultaCedula", "Consultar")] ++
         extractHiddenFields r1.body, none⟩ ∧
    detailsReq (extractHiddenFields r2.body) =
      ⟨.post, result_url,
       [("__EVENTTARGET", "LinkButton11"), ("__EVENTARGUMENT", "")] ++
         extractHiddenFields r2.body, none⟩ := by
  refine ⟨?_, rfl, rfl, rfl⟩
  unfold get_tse_details_html
  simp only [h1, ok1, h2, ok2, h3, ok3]

/-- C2, witness: the protocol instantiated on the happy-path mock. -/
theorem C2_exact_protocol_witness :
    get_tse_details_html mockT "102920417" =
      (.ok page3,
       [initReq, searchReq "102920417" (extractHiddenFields page1),
        detailsReq (extractHiddenFields page2)]) ∧
    initReq = ⟨.get, search_url, [], none⟩ ∧
    searchReq "102920417" (extractHiddenFields page1) =
      ⟨.post, search_url,
       [("txtcedula", "102920417"), ("btnConsultaCedula", "Consultar")] ++
         extractHiddenFields page1, none⟩ ∧
    detailsReq (extractHiddenFields page2) =
      ⟨.post, result_url,
       [("__EVENTTARGET", "LinkButton11"), ("__EVENTARGUMENT", "")] ++
         extractHiddenFields page2, none⟩ :=
  C2_exact_protocol mockT "102920417" ⟨200, page1⟩ Session.fresh
    ⟨200, page2⟩ Session.fresh ⟨200, page3⟩ Session.fresh
    rfl rfl rfl rfl rfl rfl

/-! ## C3: per-lookup session isolation

The navigation is re-expressed as a three-step state machine whose
steps are the lookup's atomic HTTP exchanges, each acting only on the
lookup's own session (the fresh `requests.Session()` the Python
function constructs for itself).  Two lookups run under an arbitrary
interleaving of their steps, and each is shown to end in exactly the
outcome of its solo run on its own transport. -/

/-- One lookup's progress through the navigation.  The fresh session is
created by the first step, mirroring the `requests.Session()`
constructed at the top of `get_tse_details_html`. -/
inductive Phase
  | start
  | gotInit (s : Session) (tok0 : List (String × String))
  | gotSearch (s : Session) (tok1 : List (String × String))
  | done (res : Except String Html)

/-- One atomic step of one lookup: perform the next HTTP exchange on
this lookup's own session and advance its phase. -/
def navStep (t : Transport) (c : String) : Phase → Phase
  | .start =>
    match t Session.fresh initReq with
    | .error e => .done (.error e)
    | .ok (r1, s1) =>
      match raise_for_status r1 with
      | .error e => .done (.error e)
      | .ok _ => .gotInit s1 (extractHiddenFields r1.body)
  | .gotInit s tok0 =>
    match t s (searchReq c tok0) with
    | .error e => .done (.error e)
    | .ok (r2, s2) =>
      match raise_for_status r2 with
      | .error e => .done (.error e)
      | .ok _ => .gotSearch s2 (extractHiddenFields r2.body)
  | .gotSearch s tok1 =>
    match t s (detailsReq tok1) with
    | .error e => .done (.error e)
    | .ok (r3, _) =>
      match raise_for_status r3 with
      | .error e => .done (.error e)
      | .ok _ => .done (.ok r3.body)
  | .done r => .done r

/-- Three machine steps compute exactly the lookup's result. -/
theorem navStep_three (t : Transport) (c : String) :
    (navStep t c)^[3] Phase.start = .done (get_tse_details_html t c).1 := by
  show navStep t c (navStep t c (navStep t c .start)) = _
  unfold get_tse_details_html
  cases h1 : t Session.fresh initReq with
  | error e => simp [navStep, h1]
  | ok p1 =>
    obtain ⟨r1, s1⟩ := p1
    cases k1 : raise_for_status r1 with
    | error e => simp [navStep, h1, k1]
    | ok u1 =>
      cases h2 : t s1 (searchReq c (extractHiddenFields r1.body)) with
      | error e => simp [navStep, h1, k1, h2]
      | ok p2 =>
        obtain ⟨r2, s2⟩ := p2
        cases k2 : raise_for_status r2 with
        | error e => simp [navStep, h1, k1, h2, k2]
        | ok u2 =>
          cases h3 : t s2 (detailsReq (extractHiddenFields r2.body)) with
          | error e => simp [navStep, h1, k1, h2, k2, h3]
          | ok p3 =>
            obtain ⟨r3, s3⟩ := p3
            cases k3 : raise_for_status r3 <;>
              simp [navStep, h1, k1, h2, k2, h3, *]

/-- Run two lookups — each on its own transport and session — under an
arbitrary interleaving: `true` schedules a step of the first lookup,
`false` a step of the second. -/
def runPair (t1 t2 : Transport) (c1 c2 : String) :
    List Bool → Phase × Phase → Phase × Phase
  | [], st => st
  | b :: rest, st =>
    runPair t1 t2 c1 c2 rest
      (if b then (navStep t1 c1 st.1, st.2) else (st.1, navStep t2 c2 st.2))

/-- Interleaved execution acts componentwise: each lookup's phase
evolves exactly as many of its own steps as the schedule grants it,
untouched by the other lookup's steps. -/
theorem runPair_iterate (t1 t2 : Transport) (c1 c2 : String)
    (sched : List Bool) (p : Phase × Phase) :
    runPair t1 t2 c1 c2 sched p =
      ((navStep t1 c1)^[sched.count true] p.1,
       (navStep t2 c2)^[sched.count false] p.2) := by
  induction sched generalizing p with
  | nil => simp [runPair]
  | cons b rest ih =>
    cases b <;>
      simp [runPair, ih, List.count_cons, Function.iterate_succ_apply]

/-- C3: two lookups run with independent transports are isolated: under
every interleaving of their atomic HTTP steps, each lookup ends with
exactly the terminal outcome produced by its own transport's response
sequence — never the other's.  Each lookup's steps operate only on the
session it constructed for itself. -/
theorem C3_session_isolation (t1 t2 : Transport) (c1 c2 : String)
    (sched : List Bool)
    (htrue : sched.count true = 3) (hfalse : sched.count false = 3) :
    runPair t1 t2 c1 c2 sched (Phase.start, Phase.start) =
      (.done (get_tse_details_html t1 c1).1,
       .done (get_tse_details_html t2 c2).1) := by
  rw [runPair_iterate, htrue, hfalse, navStep_three, navStep_three]

/-- C3, witness: a strictly alternating schedule of two lookups against
different mock servers; each receives its own terminal document. -/
theorem C3_session_isolation_witness :
    runPair mockT constT "102920417" "5" [true, false, true, false, true, false]
        (Phase.start, Phase.start) =
      (.done (get_tse_details_html mockT "102920417").1,
       .done (get_tse_details_html constT "5").1) :=
  C3_session_isolation mockT constT "102920417" "5"
    [true, false, true, false, true, false] rfl rfl

/-! ## C4: where missing-identifier validation happens -/

/-- C4, counterexample: the facade (`check_fallecido`) itself performs
no identifier validation and no short-circuit: called with the empty
identifier it still drives the full three-request navigation — three
network calls, the empty string submitted as `txtcedula` — and, against
a server that answers normally, even returns a success dict rather than
a missing-identifier failure with zero network calls. -/
theorem C4_counterexample :
    check_fallecido_calls mockT "" =
      [initReq, searchReq "" (extractHiddenFields page1),
       detailsReq (extractHiddenFields page2)] ∧
    check_fallecido mockT "" = ⟨some false, some "", none⟩ :=
  ⟨rfl, rfl⟩

/-- C4, amended: the missing-identifier validation lives in the HTTP
route, not in the facade: when the `cedula` query parameter is missing
or empty, the route immediately returns status 400 with the
missing-parameter error dict and performs zero network calls, never
invoking the facade. -/
theorem C4_amended (t : Transport) (cedula? : Option String)
    (h : cedula? = none ∨ cedula? = some "") :
    check_cedula t cedula? =
      ((400, ⟨none, none, some "Missing 'cedula' parameter"⟩), []) := by
  rcases h with h | h <;> subst h <;> rfl

/-- C4, witness for the amended theorem: the missing-parameter case. -/
theorem C4_amended_witness :
    check_cedula failT none =
      ((400, ⟨none, none, some "Missing 'cedula' parameter"⟩), []) :=
  C4_amended failT none (Or.inl rfl)

/-! ## C5: the facade converts every underlying failure to a result -/

/-- Every `check_fallecido` outcome has one of the two dict shapes:
success (`fallecido` boolean, `cedula` echoing the input, no `error`
key) or failure (`error` message, no `fallecido` or `cedula` key). -/
theorem check_fallecido_shape (t : Transport) (c : String) :
    (∃ b, check_fallecido t c = ⟨some b, some c, none⟩) ∨
      ∃ m, check_fallecido t c = ⟨none, none, some m⟩ := by
  unfold check_fallecido
  cases h : (get_tse_details_html t c).1 with
  | error e => exact Or.inr ⟨e, rfl⟩
  | ok html =>
    simp only [parse_fallecido]
    cases hs : findSpan html "lblfallecido" with
    | none => exact Or.inr ⟨_, rfl⟩
    | some txt =>
      by_cases hsi : normalizeStatus txt = "SI"
      · exact Or.inl ⟨true, by simp [hsi]⟩
      · by_cases hno : normalizeStatus txt = "NO"
        · exact Or.inl ⟨false, by simp [hsi, hno]⟩
        · exact Or.inr ⟨"Unknown value for Fallecido/a: " ++ normalizeStatus txt,
            by simp [hsi, hno]⟩

/-- C5: for every transport behaviour — including any exception raised
during the navigation — and every identifier, the facade returns a
plain result dict, success-shaped or failure-shaped, and every
exception message raised underneath is converted to exactly the error
dict carrying that message: nothing propagates past the facade. -/
theorem C5_no_exception_escape (t : Transport) (c : String) :
    ((∃ b, check_fallecido t c = ⟨some b, some c, none⟩) ∨
      ∃ m, check_fallecido t c = ⟨none, none, some m⟩) ∧
    ∀ e, (get_tse_details_html t c).1 = .error e →
      check_fallecido t c = ⟨none, none, some e⟩ := by
  refine ⟨check_fallecido_shape t c, fun e he => ?_⟩
  simp only [check_fallecido, he]

/-- C5, witness: a transport whose every request raises a connection
error yields the error dict with that exception's message. -/
theorem C5_no_exception_escape_witness :
    check_fallecido failT "102920417" =
      ⟨none, none, some "connection refused"⟩ :=
  (C5_no_exception_escape failT "102920417").2 "connection refused" rfl

/-! ## C6-C8: the result parser -/

/-- C6: when the terminal document carries the `lblfallecido` status
element, the parser normalizes its text by trimming whitespace and
uppercasing, and returns the deceased-true success dict exactly when
the normalized text is `SI` and the deceased-false dict exactly when it
is `NO`. -/
theorem C6_status_mapping (html : Html) (c : String) (txt : String)
    (hspan : findSpan html "lblfallecido" = some txt) :
    (parse_fallecido html c = ⟨some true, some c, none⟩ ↔
      normalizeStatus txt = "SI") ∧
    (parse_fallecido html c = ⟨some false, some c, none⟩ ↔
      normalizeStatus txt = "NO") := by
  simp only [parse_fallecido, hspan]
  by_cases hsi : normalizeStatus txt = "SI"
  · simp [hsi]
  · by_cases hno : normalizeStatus txt = "NO" <;> simp [hsi, hno]

/-- C6, witness: lowercase text with surrounding whitespace normalizes
to `SI` and yields the deceased-true success dict. -/
theorem C6_status_mapping_witness :
    parse_fallecido ⟨[], [("lblfallecido", " si ")]⟩ "1" =
      ⟨some true, some "1", none⟩ :=
  (C6_status_mapping ⟨[], [("lblfallecido", " si ")]⟩ "1" " si " rfl).1.mpr
    (by decide)

/-- C7: when the status element's normalized text is neither `SI` nor
`NO`, the parser returns a failure dict whose message carries the
literal normalized value — no fuzzy matching, the unexpected value is
surfaced verbatim as a suffix of the message. -/
theorem C7_unrecognized_value (html : Html) (c : String) (txt : String)
    (hspan : findSpan html "lblfallecido" = some txt)
    (hsi : normalizeStatus txt ≠ "SI") (hno : normalizeStatus txt ≠ "NO") :
    parse_fallecido html c =
      ⟨none, none,
       some ("Unknown value for Fallecido/a: " ++ normalizeStatus txt)⟩ ∧
    ∃ pre, "Unknown value for Fallecido/a: " ++ normalizeStatus txt =
      pre ++ normalizeStatus txt := by
  refine ⟨?_, ⟨"Unknown value for Fallecido/a: ", rfl⟩⟩
  simp only [parse_fallecido, hspan]
  simp [hsi, hno]

/-- C7, witness: the text `MAYBE` produces the failure dict carrying
the literal value `MAYBE`. -/
theorem C7_unrecognized_value_witness :
    parse_fallecido ⟨[], [("lblfallecido", "MAYBE")]⟩ "1" =
      ⟨none, none,
       some ("Unknown value for Fallecido/a: " ++ normalizeStatus "MAYBE")⟩ ∧
    ∃ pre, "Unknown value for Fallecido/a: " ++ normalizeStatus "MAYBE" =
      pre ++ normalizeStatus "MAYBE" :=
  C7_unrecognized_value ⟨[], [("lblfallecido", "MAYBE")]⟩ "1" "MAYBE"
    rfl (by decide) (by decide)

/-- C8: when the terminal document carries no `lblfallecido` status
element at all, the parser returns the element-not-found failure
dict. -/
theorem C8_absent_status_element (html : Html) (c : String)
    (hspan : findSpan html "lblfallecido" = none) :
    parse_fallecido html c =
      ⟨none, none, some "Could not find 'lblfallecido' element in HTML"⟩ := by
  simp only [parse_fallecido, hspan]

/-- C8, witness: a document with no spans at all. -/
theorem C8_absent_status_element_witness :
    parse_fallecido emptyPage "1" =
      ⟨none, none, some "Could not find 'lblfallecido' element in HTML"⟩ :=
  C8_absent_status_element emptyPage "1" rfl

/-! ## C9: request timeouts -/

/-- C9, counterexample: the three requests of a successful lookup are
all issued with the timeout argument unset — no outbound request
carries a bounded timeout. -/
theorem C9_counterexample :
    (get_tse_details_html mockT "102920417").2.map Request.timeout =
      [none, none, none] := rfl

/-- C9, amended: no outbound request ever carries an explicit timeout:
for every transport behaviour and identifier, every request the
navigation issues has its timeout argument unset, leaving the HTTP
library's default of an unbounded wait. -/
theorem C9_amended (t : Transport) (c : String) :
    ((get_tse_details_html t c).2.all fun q => q.timeout == none) = true := by
  unfold get_tse_details_html
  cases h1 : t Session.fresh initReq with
  | error e => rfl
  | ok p1 =>
    obtain ⟨r1, s1⟩ := p1
    cases k1 : raise_for_status r1 with
    | error e => simp only [k1]; rfl
    | ok u1 =>
      cases h2 : t s1 (searchReq c (extractHiddenFields r1.body)) with
      | error e => simp only [k1, h2]; rfl
      | ok p2 =>
        obtain ⟨r2, s2⟩ := p2
        cases k2 : raise_for_status r2 with
        | error e => simp only [k1, h2, k2]; rfl
        | ok u2 =>
          cases h3 : t s2 (detailsReq (extractHiddenFields r2.body)) with
          | error e => simp only [k1, h2, k2, h3]; rfl
          | ok p3 =>
            obtain ⟨r3, s3⟩ := p3
            cases k3 : raise_for_status r3 <;>
              simp only [k1, h2, k2, h3, k3] <;> rfl

/-! ## C10: the two disjoint result-dict shapes and the route's test -/

/-- C10: every facade result dict has exactly one of two disjoint
shapes — success with a `fallecido` boolean, `cedula` echoing the input
identifier and no `error` key, or failure with an `error` message and
neither `fallecido` nor `cedula` — and the route's presence-of-`error`
test maps precisely the success shape to HTTP 200 and the failure shape
to HTTP 500. -/
theorem C10_result_shape (t : Transport) (c : String) (hc : c ≠ "") :
    (∃ b, check_fallecido t c = ⟨some b, some c, none⟩ ∧
      (check_cedula t (some c)).1 = (200, ⟨some b, some c, none⟩)) ∨
    ∃ m, check_fallecido t c = ⟨none, none, some m⟩ ∧
      (check_cedula t (some c)).1 = (500, ⟨none, none, some m⟩) := by
  rcases check_fallecido_shape t c with ⟨b, hb⟩ | ⟨m, hm⟩
  · exact Or.inl ⟨b, hb, by simp [check_cedula, hc, hb]⟩
  · exact Or.inr ⟨m, hm, by simp [check_cedula, hc, hm]⟩

/-- C10, witness: the happy-path mock produces the success shape and
the 200 route response. -/
theorem C10_result_shape_witness :
    (∃ b, check_fallecido mockT "102920417" =
        ⟨some b, some "102920417", none⟩ ∧
      (check_cedula mockT (some "102920417")).1 =
        (200, ⟨some b, some "102920417", none⟩)) ∨
    ∃ m, check_fallecido mockT "102920417" = ⟨none, none, some m⟩ ∧
      (check_cedula mockT (some "102920417")).1 =
        (500, ⟨none, none, some m⟩) :=
  C10_result_shape mockT "102920417" (by decide)

end TseChecker
